import Mathlib

/-!
Shallow embedding of the typed-array object model and allocation subsystem of
the boa runtime, from:
  src/boa/src/builtins/typed_array/mod.rs
  src/boa/src/builtins/typed_array/integer_indexed_object.rs
  src/boa/src/builtins/typed_array/int8_array.rs

Conventions of the embedding:
* `usize` values are `Nat`; the one place the source performs `usize`
  arithmetic that can overflow (`element_size * length` in
  `allocate_typed_array_buffer`) is modelled with an explicit `% 2 ^ 64`,
  matching release-mode wrap-around on a 64-bit platform.
* Fallible Rust code (`JsResult<T>`) becomes `Except JsError T`.
* The engine collaborators the source calls through `Context` and the object
  model (property gets on `PROTOTYPE`, `to_index`, `is_typed_array`,
  `is_array_buffer`, `get_method`) are modelled as an explicit oracle
  structure `ExternalWorld`: each oracle records the result the external
  collaborator would return for a given object handle.
* `JsObject` is an opaque handle (an id); `JsValue` keeps only the structure
  the source inspects: `undefined`, object handles, and all other primitive
  values abstracted by a tag whose semantics live in the oracles.
* `Ok(obj.into())` wraps the constructed `IntegerIndexedObject` into a
  `JsValue`; the wrapping is injective and carries no behaviour, so the
  embedded constructor returns the `IntegerIndexedObject` directly.
-/

/-- The platform modulus for `usize` arithmetic (64-bit platform). -/
def USIZE_MOD : Nat := 2 ^ 64

/-- Names of all the typed arrays (`TypedArrayName` in mod.rs). -/
inductive TypedArrayName where
  | Int8Array
  | Uint8Array
  | Uint8ClampedArray
  | Int16Array
  | Uint16Array
  | Int32Array
  | Uint32Array
  | BigInt64Array
  | BigUint64Array
  | Float32Array
  | Float64Array
deriving DecidableEq, Repr

/-- `TypedArrayName::element_size` in mod.rs: the element size of the given
typed array name, as per Table 72 of the ECMAScript spec. -/
def TypedArrayName.element_size (self : TypedArrayName) : Nat :=
  match self with
  | .Int8Array | .Uint8Array | .Uint8ClampedArray => 1
  | .Int16Array | .Uint16Array => 2
  | .Int32Array | .Uint32Array | .Float32Array => 4
  | .BigInt64Array | .BigUint64Array | .Float64Array => 8

/-- The display name of the kind, used in the constructor's error message
(`"... when constructing an Int8Array"` in int8_array.rs). -/
def TypedArrayName.name_str (self : TypedArrayName) : String :=
  match self with
  | .Int8Array => "Int8Array"
  | .Uint8Array => "Uint8Array"
  | .Uint8ClampedArray => "Uint8ClampedArray"
  | .Int16Array => "Int16Array"
  | .Uint16Array => "Uint16Array"
  | .Int32Array => "Int32Array"
  | .Uint32Array => "Uint32Array"
  | .BigInt64Array => "BigInt64Array"
  | .BigUint64Array => "BigUint64Array"
  | .Float32Array => "Float32Array"
  | .Float64Array => "Float64Array"

/-- Type of the array content (`ContentType` in integer_indexed_object.rs). -/
inductive ContentType where
  | Number
  | BigInt
deriving DecidableEq, Repr

/-- The content-type computation duplicated verbatim in
`IntegerIndexedObject::new` and `IntegerIndexedObject::allocate_typed_array_buffer`:
BigInt for `BigInt64Array` and `BigUint64Array`, Number otherwise. -/
def TypedArrayName.content_type (self : TypedArrayName) : ContentType :=
  match self with
  | .BigInt64Array | .BigUint64Array => ContentType.BigInt
  | _ => ContentType.Number

/-- Error kinds a `JsResult` can carry. `typeError` and `rangeError` are the
two kinds this layer itself produces; `custom` stands for any other error an
external collaborator (user code re-entered through a property get or
coercion) may raise. -/
inductive JsError where
  | typeError (msg : String)
  | rangeError (msg : String)
  | custom (code : Nat)
deriving DecidableEq, Repr

/-- An opaque engine object handle (`JsObject` in the source). -/
structure JsObject where
  id : Nat
deriving DecidableEq, Repr

/-- The shapes of `JsValue` the source inspects: `undefined`, object handles,
and every other primitive value abstracted by a tag (its numeric meaning
lives in the `to_index` oracle of `ExternalWorld`). -/
inductive JsValue where
  | undefined
  | object (o : JsObject)
  | primitive (tag : Nat)
deriving DecidableEq, Repr

/-- `JsValue::is_undefined`. -/
def JsValue.is_undefined (self : JsValue) : Bool :=
  match self with
  | .undefined => true
  | _ => false

/-- `JsValue::as_object`. -/
def JsValue.as_object (self : JsValue) : Option JsObject :=
  match self with
  | .object o => some o
  | _ => none

/-- The well-known symbols this layer mentions. The source comment asks for
the iterator symbol; the source code passes `WellKnownSymbols::replace()`. -/
inductive WellKnownSymbol where
  | iterator
  | replace
deriving DecidableEq, Repr

/-- A Data Block (`DataBlock` in integer_indexed_object.rs): a mutable
sequence of byte values. `Default::default()` is the empty block. -/
structure DataBlock where
  inner : List Nat
deriving DecidableEq, Repr

/-- `DataBlock::create_byte_data_block`: returns a block of `size` zero
bytes. In the source this never fails (the fallible-allocation path is an
acknowledged TODO), so the embedding always returns `Except.ok`. -/
def DataBlock.create_byte_data_block (size : Nat) : Except JsError DataBlock :=
  Except.ok { inner := List.replicate size 0 }

/-- The integer-indexed exotic object (`IntegerIndexedObject`). -/
structure IntegerIndexedObject where
  prototype : JsObject
  viewed_array_buffer : DataBlock
  typed_array_name : TypedArrayName
  content_type : ContentType
  byte_offset : Nat
  byte_length : Nat
  array_length : Nat
deriving DecidableEq, Repr

/-- `IntegerIndexedObject::new`: an unattached view, all size fields zero,
the viewed buffer defaulted to the empty block. -/
def IntegerIndexedObject.new (prototype : JsObject)
    (constructor_name : TypedArrayName) : IntegerIndexedObject :=
  { prototype := prototype
    viewed_array_buffer := { inner := [] }
    typed_array_name := constructor_name
    content_type := constructor_name.content_type
    byte_offset := 0
    byte_length := 0
    array_length := 0 }

/-- `IntegerIndexedObject::allocate_typed_array_buffer`: computes
`byte_length = element_size * length` in `usize` arithmetic (wrapping at
`2 ^ 64`), allocates a zeroed data block of that many bytes, and returns the
attached view with `byte_offset = 0` and `array_length = length`. -/
def IntegerIndexedObject.allocate_typed_array_buffer (prototype : JsObject)
    (constructor_name : TypedArrayName) (length : Nat) :
    Except JsError IntegerIndexedObject :=
  let element_size := constructor_name.element_size
  let byte_length := element_size * length % USIZE_MOD
  match DataBlock.create_byte_data_block byte_length with
  | Except.error e => Except.error e
  | Except.ok data =>
    Except.ok
      { prototype := prototype
        typed_array_name := constructor_name
        content_type := constructor_name.content_type
        viewed_array_buffer := data
        byte_length := byte_length
        byte_offset := 0
        array_length := length }

/-- The external collaborators of this layer, as result oracles:
* `get_prototype_of o` — the outcome of `o.__get__(PROTOTYPE, ...)` on the
  construction target (may run user code, hence may fail arbitrarily);
* `to_index v` — the outcome of `v.to_index(context)` on a non-object value;
* `is_typed_array o` / `is_array_buffer o` — the internal-slot predicates;
* `get_method o s` — the outcome of `GetMethod(o, s)` for a well-known
  symbol `s`;
* `typed_array_prototype` — the object returned by
  `context.standard_objects().typed_array_object().prototype()`. -/
structure ExternalWorld where
  get_prototype_of : JsObject → Except JsError JsValue
  to_index : JsValue → Except JsError Nat
  is_typed_array : JsObject → Bool
  is_array_buffer : JsObject → Bool
  get_method : JsObject → WellKnownSymbol → Except JsError JsValue
  typed_array_prototype : JsObject

/-- Step 1 of `allocate_typed_array` in mod.rs (GetPrototypeFromConstructor):
if the construction target is not an object, use the default prototype; if it
is, get its `PROTOTYPE` property (propagating a failure) and fall back to the
default prototype when the result is not an object. -/
def get_prototype_from_constructor (world : ExternalWorld) (new_target : JsValue)
    (default_proto : JsObject) : Except JsError JsObject :=
  match new_target.as_object with
  | none => Except.ok default_proto
  | some obj =>
    match world.get_prototype_of obj with
    | Except.error e => Except.error e
    | Except.ok v =>
      match v.as_object with
      | some proto => Except.ok proto
      | none => Except.ok default_proto

/-- `allocate_typed_array` in mod.rs: resolve the prototype from the
construction target, then either build an unattached view (no length) or a
freshly attached one (`allocate_typed_array_buffer`). -/
def allocate_typed_array (constructor_name : TypedArrayName)
    (new_target : JsValue) (default_proto : JsObject) (length : Option Nat)
    (world : ExternalWorld) : Except JsError IntegerIndexedObject :=
  match get_prototype_from_constructor world new_target default_proto with
  | Except.error e => Except.error e
  | Except.ok proto =>
    match length with
    | none => Except.ok (IntegerIndexedObject.new proto constructor_name)
    | some l =>
      IntegerIndexedObject.allocate_typed_array_buffer proto constructor_name l

/-- The per-kind constructor dispatcher. The source text is
`Int8Array::constructor` in int8_array.rs, which is the one parameterized
algorithm of the design instantiated at `TypedArrayName::Int8Array`; the
embedding keeps `constructor_name` as the parameter. Faithful details:
* the missing-construction-target check comes first;
* the typed-array, array-buffer, iterator-list and array-like
  initialization bodies are TODO stubs in the source — the view stays
  unattached on every object-argument path;
* the iteration-capability query passes `WellKnownSymbols::replace()`
  (the source comment asks for the iterator symbol). -/
def typed_array_constructor (constructor_name : TypedArrayName)
    (new_target : JsValue) (args : List JsValue) (world : ExternalWorld) :
    Except JsError IntegerIndexedObject :=
  if new_target.is_undefined then
    Except.error (JsError.typeError
      ("new target was undefined when constructing an " ++
        constructor_name.name_str))
  else
    let proto := world.typed_array_prototype
    match args with
    | [] => allocate_typed_array constructor_name new_target proto (some 0) world
    | first_argument :: _ =>
      match first_argument.as_object with
      | some first_obj =>
        match allocate_typed_array constructor_name new_target proto none world with
        | Except.error e => Except.error e
        | Except.ok o =>
          if world.is_typed_array first_obj then
            -- TODO in the source: InitializeTypedArrayFromTypedArray
            Except.ok o
          else if world.is_array_buffer first_obj then
            -- TODO in the source: InitializeTypedArrayFromArrayBuffer
            Except.ok o
          else
            match world.get_method first_obj WellKnownSymbol.replace with
            | Except.error e => Except.error e
            | Except.ok using_iterator =>
              if !using_iterator.is_undefined then
                -- TODO in the source: InitializeTypedArrayFromList
                Except.ok o
              else
                -- TODO in the source: InitializeTypedArrayFromArrayLike
                Except.ok o
      | none =>
        match world.to_index first_argument with
        | Except.error e => Except.error e
        | Except.ok element_length =>
          allocate_typed_array constructor_name new_target proto
            (some element_length) world

/-- `Int8Array::constructor` is the dispatcher at `TypedArrayName::Int8Array`. -/
def Int8Array.constructor (new_target : JsValue) (args : List JsValue)
    (world : ExternalWorld) : Except JsError IntegerIndexedObject :=
  typed_array_constructor TypedArrayName.Int8Array new_target args world

/-- `TypedArray::constructor` in mod.rs, the base %TypedArray% intrinsic:
unconditionally throws a TypeError. -/
def base_typed_array_constructor (_new_target : JsValue) (_args : List JsValue)
    (_world : ExternalWorld) : Except JsError JsValue :=
  Except.error (JsError.typeError
    "the TypedArray constructor should never be called directly")

/-! ## Sample worlds used by witnesses and concrete evaluations -/

/-- A sample world: prototype gets resolve to object 100, every non-object
value coerces to index 5, the first argument is neither a typed array nor an
array buffer, and no iteration method is found. -/
def sample_world : ExternalWorld :=
  { get_prototype_of := fun _ => Except.ok (JsValue.object { id := 100 })
    to_index := fun _ => Except.ok 5
    is_typed_array := fun _ => false
    is_array_buffer := fun _ => false
    get_method := fun _ _ => Except.ok JsValue.undefined
    typed_array_prototype := { id := 7 } }

/-- A world in which every object handle passes the `is_typed_array`
internal-slot test — the environment of a construction call whose first
argument is an existing typed-array view (for instance a BigInt64Array
instance). The dispatcher never consults the source view's kind, so the
world needs no field for it. -/
def typed_array_source_world : ExternalWorld :=
  { get_prototype_of := fun _ => Except.ok (JsValue.object { id := 100 })
    to_index := fun _ => Except.ok 0
    is_typed_array := fun _ => true
    is_array_buffer := fun _ => false
    get_method := fun _ _ => Except.ok JsValue.undefined
    typed_array_prototype := { id := 7 } }

/-- A world in which every object handle passes the `is_array_buffer`
internal-slot test — the environment of a construction call whose first
argument is a buffer-like object (for instance an ArrayBuffer of odd byte
length). The dispatcher never reads the buffer's byte length, so the world
needs no field for it. -/
def array_buffer_source_world : ExternalWorld :=
  { get_prototype_of := fun _ => Except.ok (JsValue.object { id := 100 })
    to_index := fun _ => Except.ok 0
    is_typed_array := fun _ => false
    is_array_buffer := fun _ => true
    get_method := fun _ _ => Except.ok JsValue.undefined
    typed_array_prototype := { id := 7 } }

/-- A world whose objects carry an iteration method under the iterator
well-known symbol (object 55), while looking up the replace well-known
symbol fails. Distinguishes which symbol the dispatcher actually queries. -/
def iterator_only_world : ExternalWorld :=
  { get_prototype_of := fun _ => Except.ok (JsValue.object { id := 100 })
    to_index := fun _ => Except.ok 0
    is_typed_array := fun _ => false
    is_array_buffer := fun _ => false
    get_method := fun _ s =>
      match s with
      | WellKnownSymbol.iterator => Except.ok (JsValue.object { id := 55 })
      | WellKnownSymbol.replace =>
        Except.error (JsError.typeError "replace lookup failed")
    typed_array_prototype := { id := 7 } }

/-! ## Claim theorems -/

/-- C2: the element-kind table is correct for all eleven kinds — the element
size is the byte width named by the kind (1 for the three 8-bit kinds, 2 for
the 16-bit kinds, 4 for the 32-bit kinds and the 32-bit floating kind, 8 for
the two 64-bit big-integer kinds and the 64-bit floating kind), always one
of 1, 2, 4, 8; and the content type is BigInt for exactly the two 64-bit
big-integer kinds and Number for the other nine. -/
theorem c2_element_kind_table :
    TypedArrayName.Int8Array.element_size = 1 ∧
    TypedArrayName.Uint8Array.element_size = 1 ∧
    TypedArrayName.Uint8ClampedArray.element_size = 1 ∧
    TypedArrayName.Int16Array.element_size = 2 ∧
    TypedArrayName.Uint16Array.element_size = 2 ∧
    TypedArrayName.Int32Array.element_size = 4 ∧
    TypedArrayName.Uint32Array.element_size = 4 ∧
    TypedArrayName.Float32Array.element_size = 4 ∧
    TypedArrayName.BigInt64Array.element_size = 8 ∧
    TypedArrayName.BigUint64Array.element_size = 8 ∧
    TypedArrayName.Float64Array.element_size = 8 ∧
    (∀ k : TypedArrayName,
      k.element_size = 1 ∨ k.element_size = 2 ∨ k.element_size = 4 ∨
        k.element_size = 8) ∧
    TypedArrayName.BigInt64Array.content_type = ContentType.BigInt ∧
    TypedArrayName.BigUint64Array.content_type = ContentType.BigInt ∧
    TypedArrayName.Int8Array.content_type = ContentType.Number ∧
    TypedArrayName.Uint8Array.content_type = ContentType.Number ∧
    TypedArrayName.Uint8ClampedArray.content_type = ContentType.Number ∧
    TypedArrayName.Int16Array.content_type = ContentType.Number ∧
    TypedArrayName.Uint16Array.content_type = ContentType.Number ∧
    TypedArrayName.Int32Array.content_type = ContentType.Number ∧
    TypedArrayName.Uint32Array.content_type = ContentType.Number ∧
    TypedArrayName.Float32Array.content_type = ContentType.Number ∧
    TypedArrayName.Float64Array.content_type = ContentType.Number := by
  refine ⟨rfl, rfl, rfl, rfl, rfl, rfl, rfl, rfl, rfl, rfl, rfl, ?_,
    rfl, rfl, rfl, rfl, rfl, rfl, rfl, rfl, rfl, rfl, rfl⟩
  intro k
  cases k <;> simp [TypedArrayName.element_size]

/-- C3: for every kind, argument list and external world, invoking the
constructor with an undefined construction target fails with a type-error
kind. The equation holds by definitional unfolding of the dispatcher's
first step, for arbitrary `args` and `world` — no allocation and no
argument inspection can influence the result. -/
theorem c3_undefined_new_target_type_error :
    ∀ (k : TypedArrayName) (args : List JsValue) (world : ExternalWorld),
      typed_array_constructor k JsValue.undefined args world =
        Except.error (JsError.typeError
          ("new target was undefined when constructing an " ++ k.name_str)) := by
  intro k args world
  rfl

/-- C10: for every construction target, argument list and world, the base
%TypedArray% intrinsic constructor fails with a type-error kind; it never
constructs an object. -/
theorem c10_base_constructor_always_type_error :
    ∀ (new_target : JsValue) (args : List JsValue) (world : ExternalWorld),
      base_typed_array_constructor new_target args world =
        Except.error (JsError.typeError
          "the TypedArray constructor should never be called directly") := by
  intro new_target args world
  rfl

/-- C4 counter-evidence: on a 64-bit platform, the fresh-allocation path
does not fail with a range-error kind when `element_size * length` overflows
`usize`; it wraps. At kind Float64Array and length `2 ^ 61` the product
`8 * 2 ^ 61 = 2 ^ 64` wraps to byte length 0, `create_byte_data_block` never
fails, and the call returns `Except.ok` with a zero-byte buffer. -/
theorem c4_overflow_wraps_instead_of_range_error :
    IntegerIndexedObject.allocate_typed_array_buffer { id := 7 }
        TypedArrayName.Float64Array (2 ^ 61) =
      Except.ok
        { prototype := { id := 7 }
          viewed_array_buffer := { inner := [] }
          typed_array_name := TypedArrayName.Float64Array
          content_type := ContentType.Number
          byte_offset := 0
          byte_length := 0
          array_length := 2 ^ 61 } := by
  rfl

/-- Every element size is at most 8 bytes. -/
theorem element_size_le_eight (k : TypedArrayName) : k.element_size ≤ 8 := by
  cases k <;> decide

/-- Fresh allocation at a byte length below the platform modulus: the wrap
is the identity and the allocated view is fully determined. -/
theorem allocate_typed_array_buffer_eq (proto : JsObject) (k : TypedArrayName)
    (n : Nat) (hlt : k.element_size * n < USIZE_MOD) :
    IntegerIndexedObject.allocate_typed_array_buffer proto k n =
      Except.ok
        { prototype := proto
          viewed_array_buffer := { inner := List.replicate (k.element_size * n) 0 }
          typed_array_name := k
          content_type := k.content_type
          byte_offset := 0
          byte_length := k.element_size * n
          array_length := n } := by
  simp only [IntegerIndexedObject.allocate_typed_array_buffer,
    DataBlock.create_byte_data_block, Nat.mod_eq_of_lt hlt]

/-- A length bounded by the maximum safe integer never overflows the byte
computation, for any kind. -/
theorem safe_length_no_overflow (k : TypedArrayName) (n : Nat)
    (hbound : n ≤ 2 ^ 53 - 1) : k.element_size * n < USIZE_MOD := by
  calc k.element_size * n ≤ 8 * (2 ^ 53 - 1) :=
        Nat.mul_le_mul (element_size_le_eight k) hbound
    _ < USIZE_MOD := by norm_num [USIZE_MOD]

/-- C1: for every kind, constructing with a non-object first argument that
coerces (through the `to_index` collaborator) to the index `n` returns a
view with `array_length = n`, `byte_offset = 0`,
`byte_length = element_size(kind) * n`, and a freshly allocated data block
whose bytes are all zero; constructing with no arguments yields the same
with `n = 0`. The bound `n ≤ 2 ^ 53 - 1` is the ToIndex contract (an index
never exceeds the maximum safe integer). -/
theorem c1_fresh_allocation_from_index (k : TypedArrayName)
    (world : ExternalWorld) (new_target first : JsValue) (rest : List JsValue)
    (proto : JsObject) (n : Nat)
    (hnt : new_target.is_undefined = false)
    (hproto : get_prototype_from_constructor world new_target
      world.typed_array_prototype = Except.ok proto)
    (hfirst : first.as_object = none)
    (hindex : world.to_index first = Except.ok n)
    (hbound : n ≤ 2 ^ 53 - 1) :
    typed_array_constructor k new_target (first :: rest) world =
      Except.ok
        { prototype := proto
          viewed_array_buffer := { inner := List.replicate (k.element_size * n) 0 }
          typed_array_name := k
          content_type := k.content_type
          byte_offset := 0
          byte_length := k.element_size * n
          array_length := n } ∧
    typed_array_constructor k new_target [] world =
      Except.ok
        { prototype := proto
          viewed_array_buffer := { inner := [] }
          typed_array_name := k
          content_type := k.content_type
          byte_offset := 0
          byte_length := 0
          array_length := 0 } := by
  have hlt : k.element_size * n < USIZE_MOD := safe_length_no_overflow k n hbound
  have h0 : k.element_size * 0 < USIZE_MOD := by
    simpa using Nat.pos_pow_of_pos 64 (by norm_num)
  constructor
  · simp only [typed_array_constructor, hnt, Bool.false_eq_true, if_false,
      hfirst, hindex, allocate_typed_array, hproto,
      allocate_typed_array_buffer_eq proto k n hlt]
  · simp only [typed_array_constructor, hnt, Bool.false_eq_true, if_false,
      allocate_typed_array, hproto, allocate_typed_array_buffer_eq proto k 0 h0,
      Nat.mul_zero, List.replicate]

/-- Witness for C1: in `sample_world`, a primitive first argument coercing
to index 5 yields an Int8Array view of array length 5, byte length 5, byte
offset 0, over five zero bytes. -/
theorem c1_fresh_allocation_from_index_witness :
    sample_world.to_index (JsValue.primitive 0) = Except.ok 5 ∧
    (JsValue.primitive 0).as_object = none ∧
    typed_array_constructor TypedArrayName.Int8Array
        (JsValue.object { id := 1 }) [JsValue.primitive 0] sample_world =
      Except.ok
        { prototype := { id := 100 }
          viewed_array_buffer := { inner := List.replicate 5 0 }
          typed_array_name := TypedArrayName.Int8Array
          content_type := ContentType.Number
          byte_offset := 0
          byte_length := 5
          array_length := 5 } := by
  refine ⟨rfl, rfl, ?_⟩
  exact (c1_fresh_allocation_from_index TypedArrayName.Int8Array sample_world
    (JsValue.object { id := 1 }) (JsValue.primitive 0) [] { id := 100 } 5
    rfl rfl rfl rfl (by norm_num)).1

/-- On every construction call whose first argument is an object handle, a
successful result is exactly the unattached view built by
`IntegerIndexedObject.new` at the resolved prototype. -/
theorem constructor_object_arg_ok (k : TypedArrayName) (nt : JsValue)
    (o : JsObject) (rest : List JsValue) (world : ExternalWorld)
    (v : IntegerIndexedObject)
    (h : typed_array_constructor k nt (JsValue.object o :: rest) world =
      Except.ok v) :
    ∃ proto,
      get_prototype_from_constructor world nt world.typed_array_prototype =
        Except.ok proto ∧
      v = IntegerIndexedObject.new proto k := by
  unfold typed_array_constructor at h
  split at h
  · exact absurd h (by simp)
  · simp only [JsValue.as_object, allocate_typed_array] at h
    split at h
    · exact absurd h (by simp)
    · rename_i oo heq
      split at heq
      · exact absurd heq (by simp)
      · rename_i proto hproto
        injection heq with h3
        refine ⟨proto, hproto, ?_⟩
        split at h
        · injection h with h2
          exact (h3.trans h2).symm
        · split at h
          · injection h with h2
            exact (h3.trans h2).symm
          · split at h
            · exact absurd h (by simp)
            · split at h
              · injection h with h2
                exact (h3.trans h2).symm
              · injection h with h2
                exact (h3.trans h2).symm

/-- Shape of every successful dispatcher result: either the unattached view
built by `IntegerIndexedObject.new`, or a fresh allocation at length 0 (the
empty argument list) or at a length produced by the `to_index`
collaborator. -/
theorem constructor_ok_cases (k : TypedArrayName) (nt : JsValue)
    (args : List JsValue) (world : ExternalWorld) (v : IntegerIndexedObject)
    (h : typed_array_constructor k nt args world = Except.ok v) :
    (∃ proto, v = IntegerIndexedObject.new proto k) ∨
    (∃ proto n,
      (n = 0 ∨ ∃ first, world.to_index first = Except.ok n) ∧
      IntegerIndexedObject.allocate_typed_array_buffer proto k n =
        Except.ok v) := by
  cases args with
  | nil =>
    unfold typed_array_constructor at h
    split at h
    · exact absurd h (by simp)
    · simp only [allocate_typed_array] at h
      split at h
      · exact absurd h (by simp)
      · exact Or.inr ⟨_, 0, Or.inl rfl, h⟩
  | cons first rest =>
    cases first with
    | object o =>
      obtain ⟨proto, _, hv⟩ := constructor_object_arg_ok k nt o rest world v h
      exact Or.inl ⟨proto, hv⟩
    | undefined =>
      unfold typed_array_constructor at h
      split at h
      · exact absurd h (by simp)
      · simp only [JsValue.as_object] at h
        split at h
        · exact absurd h (by simp)
        · rename_i n hidx
          simp only [allocate_typed_array] at h
          split at h
          · exact absurd h (by simp)
          · exact Or.inr ⟨_, n, Or.inr ⟨_, hidx⟩, h⟩
    | primitive t =>
      unfold typed_array_constructor at h
      split at h
      · exact absurd h (by simp)
      · simp only [JsValue.as_object] at h
        split at h
        · exact absurd h (by simp)
        · rename_i n hidx
          simp only [allocate_typed_array] at h
          split at h
          · exact absurd h (by simp)
          · exact Or.inr ⟨_, n, Or.inr ⟨_, hidx⟩, h⟩

/-- The state invariant of the layer: byte offset zero and byte length equal
to the element size times the logical element count (an unattached view
satisfies it with all fields zero). -/
def view_invariant (v : IntegerIndexedObject) : Prop :=
  v.byte_offset = 0 ∧
  v.byte_length = v.typed_array_name.element_size * v.array_length

/-- C8: every view produced by this layer satisfies the state invariant.
A view built by `IntegerIndexedObject.new` has byte offset, byte length and
array length all zero; every view a constructor call returns — the only
operations of the layer — satisfies `byte_length = element_size * array_length`
with `byte_offset = 0`. The hypothesis is the ToIndex contract: the
`to_index` collaborator only ever yields indices up to the maximum safe
integer, so a fresh allocation's byte computation never wraps. -/
theorem c8_state_invariant (world : ExternalWorld)
    (hbound : ∀ (x : JsValue) (n : Nat),
      world.to_index x = Except.ok n → n ≤ 2 ^ 53 - 1) :
    (∀ (proto : JsObject) (k : TypedArrayName),
      (IntegerIndexedObject.new proto k).byte_offset = 0 ∧
      (IntegerIndexedObject.new proto k).byte_length = 0 ∧
      (IntegerIndexedObject.new proto k).array_length = 0) ∧
    (∀ (k : TypedArrayName) (nt : JsValue) (args : List JsValue)
        (v : IntegerIndexedObject),
      typed_array_constructor k nt args world = Except.ok v →
        view_invariant v) := by
  refine ⟨fun proto k => ⟨rfl, rfl, rfl⟩, ?_⟩
  intro k nt args v h
  rcases constructor_ok_cases k nt args world v h with
    ⟨proto, rfl⟩ | ⟨proto, n, hn, hal⟩
  · exact ⟨rfl, rfl⟩
  · have hn2 : n ≤ 2 ^ 53 - 1 := by
      rcases hn with rfl | ⟨x, hx⟩
      · exact Nat.zero_le _
      · exact hbound x n hx
    rw [allocate_typed_array_buffer_eq proto k n
      (safe_length_no_overflow k n hn2)] at hal
    injection hal with h2
    subst h2
    exact ⟨rfl, rfl⟩

/-- The concrete view a length-5 Int8Array construction produces in
`sample_world`. -/
def c8_sample_view : IntegerIndexedObject :=
  { prototype := { id := 100 }
    viewed_array_buffer := { inner := List.replicate 5 0 }
    typed_array_name := TypedArrayName.Int8Array
    content_type := ContentType.Number
    byte_offset := 0
    byte_length := 5
    array_length := 5 }

/-- Witness for C8: in `sample_world` (whose `to_index` always yields 5,
within the ToIndex bound) a concrete construction returns `c8_sample_view`,
which satisfies the invariant. -/
theorem c8_state_invariant_witness :
    sample_world.to_index (JsValue.primitive 0) = Except.ok 5 ∧
    typed_array_constructor TypedArrayName.Int8Array
        (JsValue.object { id := 1 }) [JsValue.primitive 0] sample_world =
      Except.ok c8_sample_view ∧
    view_invariant c8_sample_view := by
  have hb : ∀ (x : JsValue) (n : Nat),
      sample_world.to_index x = Except.ok n → n ≤ 2 ^ 53 - 1 := by
    intro x n hx
    injection hx with hx2
    subst hx2
    norm_num
  refine ⟨rfl, rfl, ?_⟩
  exact (c8_state_invariant sample_world hb).2 TypedArrayName.Int8Array
    (JsValue.object { id := 1 }) [JsValue.primitive 0] c8_sample_view rfl

/-- C9: for every construction call whose first argument is an object
handle — typed-array view, buffer-like, or iterable/array-like — a
successful return is still unattached: byte offset, byte length and array
length all zero, and the default empty backing data block; no attachment
and no element copying happens on any object-argument path. -/
theorem c9_object_argument_unattached (k : TypedArrayName) (nt : JsValue)
    (o : JsObject) (rest : List JsValue) (world : ExternalWorld)
    (v : IntegerIndexedObject)
    (h : typed_array_constructor k nt (JsValue.object o :: rest) world =
      Except.ok v) :
    v.byte_offset = 0 ∧ v.byte_length = 0 ∧ v.array_length = 0 ∧
    v.viewed_array_buffer = { inner := [] } := by
  obtain ⟨proto, _, rfl⟩ := constructor_object_arg_ok k nt o rest world v h
  exact ⟨rfl, rfl, rfl, rfl⟩

/-- Witness for C9: a concrete object-argument construction in
`sample_world` succeeds with the unattached view, whose fields are zero. -/
theorem c9_object_argument_unattached_witness :
    typed_array_constructor TypedArrayName.Int8Array
        (JsValue.object { id := 1 }) [JsValue.object { id := 2 }]
        sample_world =
      Except.ok
        (IntegerIndexedObject.new { id := 100 } TypedArrayName.Int8Array) ∧
    ((IntegerIndexedObject.new { id := 100 }
        TypedArrayName.Int8Array).byte_offset = 0 ∧
      (IntegerIndexedObject.new { id := 100 }
        TypedArrayName.Int8Array).byte_length = 0 ∧
      (IntegerIndexedObject.new { id := 100 }
        TypedArrayName.Int8Array).array_length = 0 ∧
      (IntegerIndexedObject.new { id := 100 }
        TypedArrayName.Int8Array).viewed_array_buffer = { inner := [] }) :=
  ⟨rfl, c9_object_argument_unattached TypedArrayName.Int8Array
    (JsValue.object { id := 1 }) { id := 2 } [] sample_world
    (IntegerIndexedObject.new { id := 100 } TypedArrayName.Int8Array) rfl⟩

/-- C5 counter-evidence: constructing a Float64Array (content type Number)
when the first argument passes the `is_typed_array` internal-slot test —
the environment of a BigInt64Array instance (content type BigInt) as first
argument — does not fail with a type-error kind. The initialization body is
a TODO stub in the source: the source view's kind is never read, nothing is
copied, and the call succeeds with an unattached view. -/
theorem c5_cross_content_type_not_checked :
    typed_array_constructor TypedArrayName.Float64Array
        (JsValue.object { id := 1 }) [JsValue.object { id := 2 }]
        typed_array_source_world =
      Except.ok
        (IntegerIndexedObject.new { id := 100 }
          TypedArrayName.Float64Array) := by
  rfl

/-- C6 counter-evidence: constructing an Int16Array over a buffer-like
first argument (the environment of an ArrayBuffer — its byte length, odd or
not, is never read) with an explicit byte-offset argument does not read the
offset, does not validate divisibility, and does not attach over the
buffer: the initialization body is a TODO stub and the call succeeds with
an unattached view. -/
theorem c6_buffer_argument_ignored :
    typed_array_constructor TypedArrayName.Int16Array
        (JsValue.object { id := 1 })
        [JsValue.object { id := 2 }, JsValue.primitive 1]
        array_buffer_source_world =
      Except.ok
        (IntegerIndexedObject.new { id := 100 }
          TypedArrayName.Int16Array) := by
  rfl

/-- C7 counter-evidence: the dispatcher queries the iteration capability
under the replace well-known symbol, not the iterator one. In
`iterator_only_world` the first argument does carry an iteration method
under the iterator symbol, yet construction fails with the error raised by
the replace lookup (and had the lookup succeeded, both branches are TODO
stubs that drain nothing). -/
theorem c7_queries_replace_not_iterator :
    iterator_only_world.get_method { id := 2 } WellKnownSymbol.iterator =
      Except.ok (JsValue.object { id := 55 }) ∧
    typed_array_constructor TypedArrayName.Int8Array
        (JsValue.object { id := 1 }) [JsValue.object { id := 2 }]
        iterator_only_world =
      Except.error (JsError.typeError "replace lookup failed") :=
  ⟨rfl, rfl⟩
